import Mathlib

/-!
Verification development for the biblical-quotation-detector repository.

The detection pipeline of `src/search/detector.py` (vector candidate search,
heuristic classification, LLM verification, result shaping), the LLM client of
`src/llm/claude_client.py`, and the Greek normalizer of
`scripts/process_greek.py` are embedded shallowly: Python dicts become
structures, similarity scores (Python floats) become rationals, the external
collaborators (Qdrant search, the Anthropic API call, the environment) become
explicit parameters of type `Except`/`Option`, and the wall clock becomes an
explicit elapsed-milliseconds parameter.
-/

namespace BQD

/-! ## Unicode character data

The Python sources rely on `unicodedata` and `re`.  The character-level facts
those libraries supply are encoded below as explicit functions.  Coverage is
the Basic Latin and Greek ranges that the repository's Greek inputs use; the
doc comment of each function states the extent of the encoding. -/

/-- Canonical (NFD) decomposition of one code point, as performed by
`unicodedata.normalize('NFD', ...)`.  Encoded here: the precomposed Greek
vowels with tonos (U+03AC..U+03CE) decompose to base letter + U+0301
(combining acute); unaccented Greek letters, ASCII, and whitespace have no
canonical decomposition and map to themselves. -/
def nfdChar (c : Char) : List Char :=
  if c.toNat = 0x3AC then [Char.ofNat 0x3B1, Char.ofNat 0x301]
  else if c.toNat = 0x3AD then [Char.ofNat 0x3B5, Char.ofNat 0x301]
  else if c.toNat = 0x3AE then [Char.ofNat 0x3B7, Char.ofNat 0x301]
  else if c.toNat = 0x3AF then [Char.ofNat 0x3B9, Char.ofNat 0x301]
  else if c.toNat = 0x3CC then [Char.ofNat 0x3BF, Char.ofNat 0x301]
  else if c.toNat = 0x3CD then [Char.ofNat 0x3C5, Char.ofNat 0x301]
  else if c.toNat = 0x3CE then [Char.ofNat 0x3C9, Char.ofNat 0x301]
  else [c]

/-- `unicodedata.combining(c) != 0` for the marks produced by NFD of Greek
text: the Combining Diacritical Marks block U+0300..U+036F (every code point
in that block has a nonzero canonical combining class). -/
def isCombiningMark (c : Char) : Bool :=
  decide (0x300 ≤ c.toNat) && decide (c.toNat ≤ 0x36F)

/-- Python `str.lower()` per code point: ASCII capitals and the Greek capital
letters U+0391..U+03A9 (skipping the unassigned U+03A2) map down by 0x20;
everything else in scope is already lowercase and maps to itself.  CPython
additionally applies the context-sensitive Final_Sigma rule to a capital
sigma; no capital sigma occurs in any input evaluated in this development. -/
def pyLowerChar (c : Char) : Char :=
  if 0x41 ≤ c.toNat ∧ c.toNat ≤ 0x5A then Char.ofNat (c.toNat + 0x20)
  else if 0x391 ≤ c.toNat ∧ c.toNat ≤ 0x3A9 ∧ c.toNat ≠ 0x3A2 then Char.ofNat (c.toNat + 0x20)
  else c

/-- Python `\s` for `str` inputs: space, tab, newline, carriage return,
vertical tab, form feed (the additional Unicode space code points do not occur
in the inputs considered). -/
def pyIsSpace (c : Char) : Bool :=
  c == ' ' || c == '\t' || c == '\n' || c == '\r' || c == '\x0b' || c == '\x0c'

/-- Membership in the Greek and Coptic (U+0370..U+03FF) or Greek Extended
(U+1F00..U+1FFF) blocks.  The unassigned code points inside these ranges do
not occur in the inputs considered. -/
def isGreekBlock (c : Char) : Bool :=
  (decide (0x370 ≤ c.toNat) && decide (c.toNat ≤ 0x3FF)) ||
  (decide (0x1F00 ≤ c.toNat) && decide (c.toNat ≤ 0x1FFF))

/-- Python regex `\w` (with `re.UNICODE`) restricted to the ranges in scope:
ASCII alphanumerics, underscore, and Greek letters. -/
def pyIsWordChar (c : Char) : Bool :=
  c.isAlphanum || c == '_' || isGreekBlock c

/-- An alphabetic letter, for step 5 of the specified normalizer: ASCII
letters and Greek letters. -/
def isAlphabeticChar (c : Char) : Bool :=
  c.isAlpha || isGreekBlock c

/-- Python `str.strip()`: drop whitespace from both ends. -/
def pyStripList (l : List Char) : List Char :=
  ((l.dropWhile pyIsSpace).reverse.dropWhile pyIsSpace).reverse

/-- `GreekProcessor.normalize` of `scripts/process_greek.py`, character-list
form: NFD-decompose, drop combining marks, lowercase, delete every character
matching `[^\w\s]` (keep word characters and whitespace), then `strip()`. -/
def processorNormalizeList (l : List Char) : List Char :=
  let nfd := l.flatMap nfdChar
  let stripped := nfd.filter (fun c => !(isCombiningMark c))
  let lowered := stripped.map pyLowerChar
  let wordsOnly := lowered.filter (fun c => pyIsWordChar c || pyIsSpace c)
  pyStripList wordsOnly

/-- `GreekProcessor.normalize` of `scripts/process_greek.py` on strings. -/
def processorNormalize (s : String) : String :=
  String.mk (processorNormalizeList s.toList)

/-- Collapse every run of whitespace to a single space (the second parameter
records whether the previous kept character was a space of such a run). -/
def collapseSpaces : List Char → Bool → List Char
  | [], _ => []
  | c :: rest, prevSpace =>
    if pyIsSpace c then
      if prevSpace then collapseSpaces rest true
      else ' ' :: collapseSpaces rest true
    else c :: collapseSpaces rest false

/-- Modelled from the spec: the GreekNormalizer `normalize` operation of
spec §4.1.  The function it models, `_normalize_greek`, is imported from
`src.search.detector` by `tests/test_word_overlap.py` but is absent from the
source tree, so it is reconstructed from the spec's six steps: NFD, drop
combining marks, lowercase, fold final sigma U+03C2 to medial sigma U+03C3,
keep only alphabetic letters and whitespace, collapse whitespace runs and
trim. -/
def specNormalizeList (l : List Char) : List Char :=
  let nfd := l.flatMap nfdChar
  let stripped := nfd.filter (fun c => !(isCombiningMark c))
  let lowered := stripped.map pyLowerChar
  let sigmaFolded := lowered.map (fun c => if c.toNat = 0x3C2 then Char.ofNat 0x3C3 else c)
  let lettersWs := sigmaFolded.filter (fun c => isAlphabeticChar c || pyIsSpace c)
  pyStripList (collapseSpaces lettersWs false)

/-- Modelled from the spec: string form of the §4.1 normalizer. -/
def specNormalize (s : String) : String :=
  String.mk (specNormalizeList s.toList)

/-- Split a character list on runs of whitespace, discarding empty pieces
(the behaviour of Python `str.split()` with no argument); the accumulator
holds the current word reversed. -/
def splitWordsAux : List Char → List Char → List (List Char)
  | [], acc => if acc.isEmpty then [] else [acc.reverse]
  | c :: rest, acc =>
    if pyIsSpace c then
      if acc.isEmpty then splitWordsAux rest []
      else acc.reverse :: splitWordsAux rest []
    else splitWordsAux rest (c :: acc)

/-- Modelled from the spec: the word-type set used by WordOverlap (§4.2):
normalize with the §4.1 normalizer, split on whitespace, keep tokens of
length at least `minLen`, deduplicate. -/
def overlapTokens (s : String) (minLen : Nat) : List String :=
  (((splitWordsAux (specNormalizeList s.toList) []).filter
      (fun w => decide (minLen ≤ w.length))).map String.mk).dedup

/-- Modelled from the spec: `count_shared_words(a, b, min_len)` of spec §4.2
(the `_count_shared_words` imported from `src.search.detector` by
`tests/test_word_overlap.py` but absent from the source tree): the number of
shared word types of length at least `minLen`. -/
def countSharedWords (a b : String) (minLen : Nat) : Nat :=
  ((overlapTokens a minLen).filter (fun w => (overlapTokens b minLen).contains w)).length

/-- Modelled from the spec: the §4.6 classification table gated by word
overlap, evaluated top-down, as (match_type, confidence).  Similarity scores
(Python floats) are modelled as rationals; the decimal literal 0.95 of the
table is written `mkRat 95 100`, and so on. -/
def specClassifyRow (score : ℚ) (overlap : Nat) : String × Int :=
  if score ≥ mkRat 95 100 ∧ overlap ≥ 5 then ("exact", 95)
  else if score ≥ mkRat 90 100 ∧ overlap ≥ 3 then ("close_paraphrase", 85)
  else if score ≥ mkRat 80 100 ∧ overlap ≥ 3 then ("loose_paraphrase", 70)
  else if score ≥ mkRat 70 100 ∧ overlap ≥ 2 then ("allusion", 55)
  else ("non_biblical", 60)

/-! ## Data model of the detector

`src/search/detector.py` and `src/llm/claude_client.py`.  A candidate is one
of the dicts produced by `QdrantManager.search` and consumed by
`QuotationDetector`; similarity scores (Python floats) are modelled as
rationals. -/

/-- One search hit, as formatted by `QdrantManager.search` (keys `id`,
`score`, `text`, `reference`, `book`, `chapter`, `verse`, `source`); the
detector additionally reads the optional key `greek_original`. -/
structure Candidate where
  id : Int
  score : ℚ
  text : String
  reference : String
  book : String
  chapter : Int
  verse : Int
  source : String
  greek_original : Option String
deriving DecidableEq

/-- `DetectionSource` of `src/search/detector.py`. -/
structure DetectionSource where
  reference : String
  book : String
  chapter : Int
  verse : Int
  greek_text : String
  greek_original : Option String
  similarity_score : ℚ
  source_edition : String
deriving DecidableEq

/-- `DetectionResult` of `src/search/detector.py`. -/
structure DetectionResult where
  input_text : String
  is_quotation : Bool
  confidence : Int
  match_type : String
  sources : List DetectionSource
  best_match : Option DetectionSource
  explanation : String
  processing_time_ms : Int
deriving DecidableEq

/-- The conversion of a candidate dict to a `DetectionSource` performed in
`QuotationDetector.detect`. -/
def toDetectionSource (c : Candidate) : DetectionSource :=
  { reference := c.reference, book := c.book, chapter := c.chapter, verse := c.verse,
    greek_text := c.text, greek_original := c.greek_original,
    similarity_score := c.score, source_edition := c.source }

/-- `MatchType` of `src/llm/claude_client.py` (note the sixth variant
`uncertain`, absent from the API layer's five-variant enum in
`src/api/models.py`). -/
inductive MatchType where
  | exact
  | close_paraphrase
  | loose_paraphrase
  | allusion
  | non_biblical
  | uncertain
deriving DecidableEq

/-- The `.value` of a `MatchType` enum member. -/
def MatchType.value : MatchType → String
  | .exact => "exact"
  | .close_paraphrase => "close_paraphrase"
  | .loose_paraphrase => "loose_paraphrase"
  | .allusion => "allusion"
  | .non_biblical => "non_biblical"
  | .uncertain => "uncertain"

/-- `MatchType(s)`: the enum lookup by value, `none` when the string is not
one of the six member values (Python raises `ValueError` there). -/
def matchTypeOfString (s : String) : Option MatchType :=
  if s = "exact" then some .exact
  else if s = "close_paraphrase" then some .close_paraphrase
  else if s = "loose_paraphrase" then some .loose_paraphrase
  else if s = "allusion" then some .allusion
  else if s = "non_biblical" then some .non_biblical
  else if s = "uncertain" then some .uncertain
  else none

/-- `VerificationResult` of `src/llm/claude_client.py`. -/
structure VerificationResult where
  is_quotation : Bool
  match_type : MatchType
  confidence : Int
  explanation : String
  best_match_reference : Option String
  best_match_text : Option String
deriving DecidableEq

/-- `ClaudeClient` state after a successful `__init__` (the Anthropic SDK
handle itself carries no detection-relevant state). -/
structure ClaudeClient where
  api_key : String
  model : String
  max_tokens : Nat
  temperature : ℚ
deriving DecidableEq

/-- `ClaudeClient.__init__` with its default arguments.  The environment
lookup `os.getenv("ANTHROPIC_API_KEY")` is the `Option String` parameter
(`none` when the variable is unset); an unset, empty, or placeholder key
raises `ValueError`, modelled as `.error`. -/
def claudeClientInit (envKey : Option String) : Except String ClaudeClient :=
  match envKey with
  | none => .error "ANTHROPIC_API_KEY not set in environment"
  | some k =>
    if k = "" ∨ k = "your_key_here" then .error "ANTHROPIC_API_KEY not set in environment"
    else .ok { api_key := k, model := "claude-sonnet-4-20250514", max_tokens := 1024,
               temperature := mkRat 1 10 }

/-! ## Parsing of the LLM response
(`ClaudeClient._parse_verification_response`). -/

/-- Split at the first colon, as `line.split(":", 1)`: `none` when the line
contains no colon. -/
def splitFirstColon : List Char → Option (List Char × List Char)
  | [] => none
  | c :: rest =>
    if c = ':' then some ([], rest)
    else (splitFirstColon rest).map (fun p => (c :: p.1, p.2))

/-- Python `"...".split("\n")`: split at every newline, keeping empty
pieces. -/
def splitOnNewlines : List Char → List (List Char)
  | [] => [[]]
  | c :: rest =>
    if c = '\n' then [] :: splitOnNewlines rest
    else
      match splitOnNewlines rest with
      | [] => [[c]]
      | w :: ws => (c :: w) :: ws

/-- Assignment into the result dict: a later assignment to the same key
overwrites the earlier one. -/
def dictInsert (k v : String) (d : List (String × String)) : List (String × String) :=
  (k, v) :: d.filter (fun p => !(p.1 == k))

/-- Dict lookup with a default (`result_dict.get(key, default)`). -/
def dictGet (d : List (String × String)) (k default : String) : String :=
  match d.find? (fun p => p.1 == k) with
  | some p => p.2
  | none => default

/-- Python `int(s)`: surrounding whitespace and an optional leading `+` are
accepted (digit-group underscores, which never occur here, are not
modelled); a non-numeric string is `none` (Python raises `ValueError`). -/
def pyInt (s : String) : Option Int :=
  let t := String.mk (pyStripList s.toList)
  let t2 := if t.startsWith "+" then t.drop 1 else t
  t2.toInt?

/-- `ClaudeClient._parse_verification_response`: split the stripped body on
newlines, split each line at its first colon into an upper-cased key and a
stripped value (later lines overwrite), then read the five recognized keys
with their defaults; an unrecognized `MATCH_TYPE` collapses to `uncertain`,
and `CONFIDENCE` is clamped to [0, 100] (defaulting to 50 when
unparseable). -/
def parseVerificationResponse (responseText : String) (candidates : List Candidate) :
    VerificationResult :=
  let lines := splitOnNewlines (pyStripList responseText.toList)
  let d := lines.foldl (fun d line =>
    match splitFirstColon line with
    | some kv =>
      dictInsert (String.mk (pyStripList kv.1)).toUpper (String.mk (pyStripList kv.2)) d
    | none => d) []
  let isQuot := (dictGet d "IS_QUOTATION" "no").toLower == "yes"
  let mtStr := (dictGet d "MATCH_TYPE" "non_biblical").toLower
  let mt := (matchTypeOfString mtStr).getD .uncertain
  let conf : Int :=
    match pyInt (dictGet d "CONFIDENCE" "50") with
    | some n => max 0 (min 100 n)
    | none => 50
  let expl := dictGet d "EXPLANATION" "No explanation provided."
  let bestRefRaw := dictGet d "BEST_REFERENCE" "none"
  let bestRef := if bestRefRaw.toLower = "none" then none else some bestRefRaw
  let bestText :=
    match bestRef with
    | some r =>
      if r = "" then none
      else (candidates.find? (fun c => c.reference == r)).map (fun c => c.text)
    | none => none
  { is_quotation := isQuot, match_type := mt, confidence := conf, explanation := expl,
    best_match_reference := bestRef, best_match_text := bestText }

/-- `ClaudeClient.verify_quotation`.  The transport outcome of the API call
is the `Except String String` parameter (`.ok body` carries the completion
text of a successful call).  An empty candidate list short-circuits to a
`non_biblical` verdict; a failed call is caught inside the method and
becomes an `uncertain` verdict with confidence 0 — it does NOT raise. -/
def verifyQuotation (_client : ClaudeClient) (apiResponse : Except String String)
    (_inputText : String) (candidates : List Candidate) : VerificationResult :=
  if candidates.isEmpty then
    { is_quotation := false, match_type := .non_biblical, confidence := 90,
      explanation := "No candidate matches found in vector search.",
      best_match_reference := none, best_match_text := none }
  else
    match apiResponse with
    | .ok body => parseVerificationResponse body candidates
    | .error e =>
      { is_quotation := false, match_type := .uncertain, confidence := 0,
        explanation := "Error during verification: " ++ e,
        best_match_reference := none, best_match_text := none }

/-! ## The detector (`QuotationDetector`) -/

/-- Zero-pad a number below 1000 to three digits. -/
def padThree (n : Nat) : String :=
  if n < 10 then "00" ++ toString n
  else if n < 100 then "0" ++ toString n
  else toString n

/-- The Python f-string conversion `{x:.3f}` on a score: round to three
decimal places (ties to even) and render with exactly three decimals.  (The
original formats the closest binary double; on the scores evaluated here the
two agree.) -/
def formatQ3 (q : ℚ) : String :=
  let x : ℚ := q * mkRat 1000 1
  let fl : Int := x.floor
  let frac : ℚ := x - fl
  let scaled : Int :=
    if frac > mkRat 1 2 then fl + 1
    else if frac < mkRat 1 2 then fl
    else if fl % 2 = 0 then fl else fl + 1
  let sign := if scaled < 0 then "-" else ""
  sign ++ toString (scaled.natAbs / 1000) ++ "." ++ padThree (scaled.natAbs % 1000)

/-- `QuotationDetector._heuristic_classify`: classification by the top
similarity score alone (thresholds 0.95 / 0.85 / 0.75 / 0.65, written
`mkRat n 100`); no word-overlap gate is consulted.  The triple `cls` bundles
the `match_type`, `confidence` and `is_quotation` assigned by the selected
branch. -/
def heuristicClassify (text : String) (candidates : List Candidate)
    (sources : List DetectionSource) : DetectionResult :=
  match candidates with
  | [] =>
    { input_text := text, is_quotation := false, confidence := 90,
      match_type := "non_biblical", sources := [], best_match := none,
      explanation := "No candidates found.", processing_time_ms := 0 }
  | top :: _ =>
    let topScore := top.score
    let bestMatch := sources.head?
    let cls : String × Int × Bool :=
      if topScore ≥ mkRat 95 100 then ("exact", 95, true)
      else if topScore ≥ mkRat 85 100 then ("close_paraphrase", 85, true)
      else if topScore ≥ mkRat 75 100 then ("loose_paraphrase", 70, true)
      else if topScore ≥ mkRat 65 100 then ("allusion", 55, true)
      else ("non_biblical", 60, false)
    let expl :=
      "Heuristic classification based on similarity score (" ++ formatQ3 topScore ++
      "). Top match: " ++
      (match bestMatch with
       | some b => b.reference
       | none => "none") ++ "."
    { input_text := text, is_quotation := cls.2.2, confidence := cls.2.1,
      match_type := cls.1, sources := sources.take 3, best_match := bestMatch,
      explanation := expl, processing_time_ms := 0 }

/-- `QuotationDetector._llm_verify`.  The lazy `claude_client` property is
evaluated inside the method's `try`, so a constructor failure (`clientInit =
.error`) is caught there and falls back to the heuristic classifier;
`verify_quotation` itself never raises. -/
def llmVerify (clientInit : Except String ClaudeClient)
    (apiResponse : Except String String) (text : String)
    (candidates : List Candidate) (sources : List DetectionSource) : DetectionResult :=
  match clientInit with
  | .error _ => heuristicClassify text candidates sources
  | .ok client =>
    let verification := verifyQuotation client apiResponse text candidates
    let best0 : Option DetectionSource :=
      match verification.best_match_reference with
      | some r =>
        if r = "" then none
        else sources.find? (fun s => s.reference == r)
      | none => none
    let bestMatch :=
      if best0.isNone && verification.is_quotation && !sources.isEmpty then sources.head?
      else best0
    { input_text := text, is_quotation := verification.is_quotation,
      confidence := verification.confidence, match_type := verification.match_type.value,
      sources := sources.take 3, best_match := bestMatch,
      explanation := verification.explanation, processing_time_ms := 0 }

/-- `QuotationDetector._vector_search`: the Qdrant call's outcome is the
`Except` parameter; any exception is caught and turned into an empty
candidate list. -/
def vectorSearch (outcome : Except String (List Candidate)) : List Candidate :=
  match outcome with
  | .ok results => results
  | .error _ => []

/-- `QuotationDetector.detect`.  The fixed vector-index state (the search
outcome for `text`), the lazily constructed Claude client, the API transport
outcome, and the measured wall time are explicit parameters. -/
def detect (searchOutcome : Except String (List Candidate)) (useLlm : Bool)
    (clientInit : Except String ClaudeClient) (apiResponse : Except String String)
    (text : String) (minConfidence : Int) (includeAllCandidates : Bool)
    (elapsedMs : Int) : DetectionResult :=
  let candidates := vectorSearch searchOutcome
  if candidates.isEmpty then
    { input_text := text, is_quotation := false, confidence := 90,
      match_type := "non_biblical", sources := [], best_match := none,
      explanation := "No similar biblical texts found in vector search.",
      processing_time_ms := elapsedMs }
  else
    let sources := candidates.map toDetectionSource
    let result :=
      if useLlm then llmVerify clientInit apiResponse text candidates sources
      else heuristicClassify text candidates sources
    let result1 :=
      if result.confidence < minConfidence then { result with is_quotation := false }
      else result
    let result2 :=
      if includeAllCandidates then { result1 with sources := sources }
      else { result1 with sources := sources.take 3 }
    { result2 with processing_time_ms := elapsedMs }

/-- The loop body of `QuotationDetector.detect_batch`: one `detect` call per
text, `include_all_candidates` left at its default `False`; the clock is the
function from call index to measured elapsed time. -/
def detectBatchGo (searchOutcome : Except String (List Candidate)) (useLlm : Bool)
    (clientInit : Except String ClaudeClient) (apiResponse : Except String String)
    (minConfidence : Int) (elapsed : Nat → Int) :
    List String → Nat → List DetectionResult
  | [], _ => []
  | t :: ts, i =>
    detect searchOutcome useLlm clientInit apiResponse t minConfidence false (elapsed i) ::
      detectBatchGo searchOutcome useLlm clientInit apiResponse minConfidence elapsed ts (i + 1)

/-- `QuotationDetector.detect_batch`. -/
def detectBatch (searchOutcome : Except String (List Candidate)) (useLlm : Bool)
    (clientInit : Except String ClaudeClient) (apiResponse : Except String String)
    (texts : List String) (minConfidence : Int) (elapsed : Nat → Int) :
    List DetectionResult :=
  detectBatchGo searchOutcome useLlm clientInit apiResponse minConfidence elapsed texts 0

/-! ## Concrete fixtures

Inputs used by the concrete theorems below.  The texts are plain lowercase
unaccented Greek (the two lists of unrelated words come from
`tests/test_word_overlap.py`), so every code point lies inside the encoded
Unicode coverage. -/

/-- A candidate with a very high similarity score whose verse text shares no
word with `fpText` (the false-positive pattern of the repository's reports:
high embedding similarity, zero lexical overlap). -/
def fpCandidate : Candidate :=
  { id := 101, score := mkRat 97 100, text := "ζητα ηθικα θητα ιωτα",
    reference := "2 Corinthians 8:17", book := "2 Corinthians", chapter := 8, verse := 17,
    source := "grc_sbl", greek_original := none }

/-- An input text lexically disjoint from `fpCandidate.text`. -/
def fpText : String := "αλφα βητα γαμμα δελτα"

/-- A candidate whose similarity score 0.3 falls below every heuristic
threshold. -/
def lowCandidate : Candidate :=
  { id := 7, score := mkRat 3 10, text := "θεσθε ουν εις τας καρδιας",
    reference := "Luke 21:14", book := "Luke", chapter := 21, verse := 14,
    source := "grc_sbl", greek_original := none }

/-! ## Claims -/

/-- C1: the claim states that `_heuristic_classify` follows the §4.6 table
gated by word overlap (exact needs score ≥ 0.95 AND overlap ≥ 5, and a
failed overlap gate falls through to non_biblical with confidence 60).  The
code contains no overlap gate: at a candidate with score 0.97 whose verse
text shares zero words of length ≥ 3 with the input, the code classifies
`exact` with confidence 95, while the claimed table yields `non_biblical`
with confidence 60. -/
theorem heuristic_ignores_overlap_gate :
    (heuristicClassify fpText [fpCandidate] [toDetectionSource fpCandidate]).match_type
      = "exact"
  ∧ (heuristicClassify fpText [fpCandidate] [toDetectionSource fpCandidate]).confidence = 95
  ∧ (heuristicClassify fpText [fpCandidate] [toDetectionSource fpCandidate]).is_quotation
      = true
  ∧ countSharedWords fpText fpCandidate.text 3 = 0
  ∧ specClassifyRow fpCandidate.score (countSharedWords fpText fpCandidate.text 3)
      = ("non_biblical", 60) :=
  ⟨by decide, by decide, by decide, by decide, by decide⟩

/-- C2 (counterexample): a failing vector search does NOT surface an error:
`detect` returns the very same normal DetectionResult (`non_biblical`,
confidence 90) that a legitimate empty search produces, so the failure is
not distinguishable from a no-match verdict. -/
theorem vector_failure_yields_normal_result :
    detect (.error "qdrant connection refused") false (.error "nokey") (.error "nocall")
        "δοκιμη" 50 false 7
      = detect (.ok []) false (.error "nokey") (.error "nocall") "δοκιμη" 50 false 7
  ∧ (detect (.error "qdrant connection refused") false (.error "nokey") (.error "nocall")
        "δοκιμη" 50 false 7).match_type = "non_biblical"
  ∧ (detect (.error "qdrant connection refused") false (.error "nokey") (.error "nocall")
        "δοκιμη" 50 false 7).confidence = 90 :=
  ⟨rfl, rfl, rfl⟩

/-- C2 (amended): when the vector index fails, `_vector_search` catches the
exception and returns an empty candidate list, so `detect` returns the
normal empty-candidates DetectionResult — identical, for every mode and
option, to the result of a search that legitimately found nothing. -/
theorem detect_vector_failure_equals_empty (e : String) (ulm : Bool)
    (ci : Except String ClaudeClient) (ar : Except String String)
    (text : String) (mc : Int) (inc : Bool) (t : Int) :
    detect (.error e) ulm ci ar text mc inc t = detect (.ok []) ulm ci ar text mc inc t :=
  rfl

/-- C3: the claim states that `detect` only ever returns the five API
match types and maps the verifier's `uncertain` to `non_biblical` with
confidence 0.  In fact, when the Claude API call fails, `verify_quotation`
catches the error internally and returns `MatchType.UNCERTAIN`, and
`_llm_verify` passes `.value` straight through: `detect` returns
`match_type = "uncertain"` (confidence 0), a value outside the five-variant
set declared by `src/api/models.py`. -/
theorem detect_llm_api_failure_emits_uncertain :
    (detect (.ok [fpCandidate]) true (claudeClientInit (some "sk-test"))
        (.error "Connection error") fpText 50 false 12).match_type = "uncertain"
  ∧ "uncertain" ∉
      (["exact", "close_paraphrase", "loose_paraphrase", "allusion", "non_biblical"] :
        List String)
  ∧ (detect (.ok [fpCandidate]) true (claudeClientInit (some "sk-test"))
        (.error "Connection error") fpText 50 false 12).confidence = 0 :=
  ⟨by decide, by decide, by decide⟩

/-- C4 (counterexample): the heuristic non_biblical branch does NOT drop
`best_match`: a candidate with score 0.3 is classified `non_biblical`, yet
the result still carries the top source as `best_match`. -/
theorem non_biblical_result_carries_best_match :
    (heuristicClassify fpText [lowCandidate] [toDetectionSource lowCandidate]).match_type
      = "non_biblical"
  ∧ (heuristicClassify fpText [lowCandidate] [toDetectionSource lowCandidate]).is_quotation
      = false
  ∧ (heuristicClassify fpText [lowCandidate] [toDetectionSource lowCandidate]).best_match
      = some (toDetectionSource lowCandidate) :=
  ⟨by decide, by decide, by decide⟩

/-- C4 (amended): in the heuristic classifier, `best_match` is the head of
the source list whenever the candidate list is nonempty — irrespective of
the match type, including `non_biblical` — and is absent only in the
empty-candidates result. -/
theorem heuristic_best_match_is_top (text : String) (c : Candidate)
    (cs : List Candidate) (srcs : List DetectionSource) :
    (heuristicClassify text (c :: cs) srcs).best_match = srcs.head?
  ∧ (heuristicClassify text [] srcs).best_match = none :=
  ⟨rfl, rfl⟩

/-- C5 (counterexample): `GreekProcessor.normalize` performs no final-sigma
folding: two strings identical except for final vs medial sigma normalize to
different outputs, and the final-sigma code point U+03C2 survives in the
output. -/
theorem normalize_distinguishes_sigma_forms :
    processorNormalize "λογοσ" ≠ processorNormalize "λογος"
  ∧ Char.ofNat 0x3C2 ∈ (processorNormalize "λογος").toList :=
  ⟨by decide, by decide⟩

/-- C5 (amended): `GreekProcessor.normalize` strips combining marks (the
first input is λόγος with a precomposed accented omicron, built explicitly
from code points), lowercases and removes punctuation, but leaves both sigma
forms untouched: final sigma stays final, medial stays medial. -/
theorem normalize_preserves_final_sigma :
    processorNormalize (String.mk [Char.ofNat 0x3BB, Char.ofNat 0x3CC, Char.ofNat 0x3B3,
        Char.ofNat 0x3BF, Char.ofNat 0x3C2]) = "λογος"
  ∧ processorNormalize "λογος" = "λογος"
  ∧ processorNormalize "λογοσ" = "λογοσ" :=
  ⟨by decide, by decide, by decide⟩

/-- C6: whenever the confidence of the result returned by `detect` is
strictly below the request's `min_confidence`, the result has
`is_quotation = false` (in every mode and for every search outcome). -/
theorem detect_confidence_floor (so : Except String (List Candidate)) (ulm : Bool)
    (ci : Except String ClaudeClient) (ar : Except String String)
    (text : String) (mc : Int) (inc : Bool) (t : Int)
    (h : (detect so ulm ci ar text mc inc t).confidence < mc) :
    (detect so ulm ci ar text mc inc t).is_quotation = false := by
  rcases so with e | l
  · rfl
  · cases l with
    | nil => rfl
    | cons c cs =>
      revert h
      dsimp only [detect, vectorSearch, List.isEmpty]
      by_cases hc : (if ulm then llmVerify ci ar text (c :: cs) ((c :: cs).map toDetectionSource)
          else heuristicClassify text (c :: cs) ((c :: cs).map toDetectionSource)).confidence < mc
      · intro _
        simp only [if_pos hc]
        cases inc <;> rfl
      · intro h
        simp only [if_neg hc] at h
        cases inc <;> exact absurd h hc

/-- Witness for C6 at a concrete call: the empty search result has
confidence 90, which is below the requested floor 95, and the returned
result indeed has `is_quotation = false`. -/
theorem detect_confidence_floor_witness :
    (detect (.ok []) false (.error "nokey") (.error "nocall") "κειμενο" 95 false 4).confidence
      < 95
  ∧ (detect (.ok []) false (.error "nokey") (.error "nocall") "κειμενο" 95 false 4).is_quotation
      = false :=
  ⟨by decide,
   detect_confidence_floor (.ok []) false (.error "nokey") (.error "nocall") "κειμενο" 95
     false 4 (by decide)⟩

/-- C7: in heuristic mode, `detect` is a pure function of the input text,
the options and the fixed search outcome: two calls that differ only in the
measured wall time agree on every field except `processing_time_ms`. -/
theorem detect_heuristic_deterministic (so : Except String (List Candidate))
    (ci : Except String ClaudeClient) (ar : Except String String)
    (text : String) (mc : Int) (inc : Bool) (t1 t2 : Int) :
    { detect so false ci ar text mc inc t1 with processing_time_ms := 0 }
  = { detect so false ci ar text mc inc t2 with processing_time_ms := 0 } := by
  rcases so with e | l
  · rfl
  · cases l with
    | nil => rfl
    | cons c cs => rfl

/-- The confidences assigned by `_heuristic_classify` all lie in
{55, 60, 70, 85, 90, 95} (and hence are at least 55). -/
theorem heuristicClassify_confidence_cases (text : String) (cands : List Candidate)
    (srcs : List DetectionSource) :
    (heuristicClassify text cands srcs).confidence ∈ ([55, 60, 70, 85, 90, 95] : List Int)
  ∧ 55 ≤ (heuristicClassify text cands srcs).confidence := by
  cases cands with
  | nil =>
    exact ⟨(by decide : (90 : Int) ∈ ([55, 60, 70, 85, 90, 95] : List Int)),
           (by decide : (55 : Int) ≤ 90)⟩
  | cons c cs =>
    dsimp only [heuristicClassify]
    split_ifs <;> exact ⟨by decide, by decide⟩

/-- C8: in heuristic mode, every result of `detect` has a confidence drawn
from the fixed set {55, 60, 70, 85, 90, 95}; in particular the confidence is
never below 55, whatever the input text and candidate scores. -/
theorem detect_heuristic_confidence_values (so : Except String (List Candidate))
    (ci : Except String ClaudeClient) (ar : Except String String)
    (text : String) (mc : Int) (inc : Bool) (t : Int) :
    (detect so false ci ar text mc inc t).confidence ∈ ([55, 60, 70, 85, 90, 95] : List Int)
  ∧ 55 ≤ (detect so false ci ar text mc inc t).confidence := by
  rcases so with e | l
  · exact ⟨(by decide : (90 : Int) ∈ ([55, 60, 70, 85, 90, 95] : List Int)),
           (by decide : (55 : Int) ≤ 90)⟩
  · cases l with
    | nil =>
      exact ⟨(by decide : (90 : Int) ∈ ([55, 60, 70, 85, 90, 95] : List Int)),
             (by decide : (55 : Int) ≤ 90)⟩
    | cons c cs =>
      have heq : (detect (.ok (c :: cs)) false ci ar text mc inc t).confidence
          = (heuristicClassify text (c :: cs) ((c :: cs).map toDetectionSource)).confidence := by
        dsimp only [detect, vectorSearch, List.isEmpty]
        by_cases hc : (if false = true then
            llmVerify ci ar text (c :: cs) ((c :: cs).map toDetectionSource)
            else heuristicClassify text (c :: cs) ((c :: cs).map toDetectionSource)).confidence
            < mc
        · simp only [if_pos hc]
          cases inc <;> rfl
        · simp only [if_neg hc]
          cases inc <;> rfl
      rw [heq]
      exact heuristicClassify_confidence_cases text (c :: cs) ((c :: cs).map toDetectionSource)

/-- C9: when the ANTHROPIC_API_KEY environment variable is unset or holds
the placeholder value, the lazy `ClaudeClient` construction fails with
`ValueError`, which `_llm_verify` catches: an LLM-mode `detect` call returns
exactly the heuristic-mode result over the same candidates, with no error
surfaced. -/
theorem detect_llm_missing_key_falls_back (envKey : Option String)
    (h : envKey = none ∨ envKey = some "your_key_here")
    (so : Except String (List Candidate)) (ar : Except String String)
    (text : String) (mc : Int) (inc : Bool) (t : Int) :
    detect so true (claudeClientInit envKey) ar text mc inc t
  = detect so false (claudeClientInit envKey) ar text mc inc t := by
  obtain ⟨e, he⟩ : ∃ e, claudeClientInit envKey = .error e := by
    rcases h with h | h <;> subst h <;> exact ⟨_, rfl⟩
  rw [he]
  rcases so with e2 | l
  · rfl
  · cases l with
    | nil => rfl
    | cons c cs => rfl

/-- Witness for C9 at a concrete call: with the key unset, the LLM-mode
result coincides with the heuristic-mode result. -/
theorem detect_llm_missing_key_falls_back_witness :
    (none = (none : Option String) ∨ (none : Option String) = some "your_key_here")
  ∧ detect (.ok [lowCandidate]) true (claudeClientInit none) (.ok "IS_QUOTATION: yes")
      "κειμενο" 50 false 3
  = detect (.ok [lowCandidate]) false (claudeClientInit none) (.ok "IS_QUOTATION: yes")
      "κειμενο" 50 false 3 :=
  ⟨Or.inl rfl,
   detect_llm_missing_key_falls_back none (Or.inl rfl) (.ok [lowCandidate])
     (.ok "IS_QUOTATION: yes") "κειμενο" 50 false 3⟩

/-- `detect_batch`'s loop starting at index `i` is the map of `detect` over
the texts enumerated from `i`. -/
theorem detectBatchGo_eq_enumFrom (so : Except String (List Candidate)) (ulm : Bool)
    (ci : Except String ClaudeClient) (ar : Except String String)
    (mc : Int) (elapsed : Nat → Int) (ts : List String) (i : Nat) :
    detectBatchGo so ulm ci ar mc elapsed ts i
  = (List.enumFrom i ts).map (fun p => detect so ulm ci ar p.2 mc false (elapsed p.1)) := by
  induction ts generalizing i with
  | nil => rfl
  | cons t ts ih => simp [detectBatchGo, List.enumFrom, ih]

/-- C10: `detect_batch(texts, min_confidence)` returns exactly the list of
`detect(t, min_confidence)` results, one per text in order (so of the same
length), each with `include_all_candidates` left at its default `False`. -/
theorem detect_batch_is_map (so : Except String (List Candidate)) (ulm : Bool)
    (ci : Except String ClaudeClient) (ar : Except String String)
    (texts : List String) (mc : Int) (elapsed : Nat → Int) :
    detectBatch so ulm ci ar texts mc elapsed
  = texts.enum.map (fun p => detect so ulm ci ar p.2 mc false (elapsed p.1)) := by
  simpa [detectBatch, List.enum] using
    detectBatchGo_eq_enumFrom so ulm ci ar mc elapsed texts 0

end BQD
